import Mathlib

/-!
Verification development for the thrust-vector-forge hybrid rocket engine
performance model.

The embedded code is the current (propellant-tuned) variant of
`runLiteSimulation` and its helper `calculateThrustCoefficient` from
src/src/utils/simulationEngine.ts, together with the parameter and result
records from src/src/types/simulation.ts.

Modelling conventions:
* JavaScript numbers are modelled as real numbers (ℝ).
* Math.sqrt is modelled by `jsqrt : ℝ → Option ℝ`, where `none` stands for
  the NaN produced by a negative radicand; NaN propagation through later
  arithmetic is modelled by `Option.map` / `Option.bind`.
* Math.pow with a fractional exponent is modelled by `Real.rpow` (the code
  only applies it to non-negative bases on the executions the theorems are
  about).
* Math.random() and Date.now() are the only effectful calls; they are
  modelled as explicitly injected arguments (`id`, `ts`).
* The enclosing Promise always resolves (the function body contains no
  throw); `runLiteSimulationE` wraps the result in `Except.ok` so that
  claims about failure outcomes can be stated.
-/

noncomputable section

namespace ThrustVectorForge

/-- JS Math.sqrt: `none` models NaN from a negative radicand. -/
def jsqrt (x : ℝ) : Option ℝ := if x < 0 then none else some (Real.sqrt x)

/-- NaN-propagating binary arithmetic on JS numbers. -/
def omap2 (f : ℝ → ℝ → ℝ) (u v : Option ℝ) : Option ℝ :=
  u.bind fun x => v.map fun y => f x y

/-- Nozzle contour kinds, from types/simulation.ts. -/
inductive ContourType
  | conical
  | bell
deriving DecidableEq

/-- Grain port axial profile kinds, from types/simulation.ts. -/
inductive PortAxialProfile
  | cylindrical
  | tapered
deriving DecidableEq

/-- GrainParameters, from types/simulation.ts. -/
structure GrainParameters where
  length_mm : ℝ
  outer_diameter_mm : ℝ
  initial_port_diameter_mm : ℝ
  port_wall_thickness_mm : ℝ
  port_axial_profile : PortAxialProfile
  port_profile_taper_angle_deg : ℝ

/-- CombustionChamberParameters, from types/simulation.ts. -/
structure CombustionChamberParameters where
  length_mm : ℝ
  inner_diameter_mm : ℝ
  wall_thickness_mm : ℝ
  chamber_volume_cc : ℝ

/-- InjectorParameters, from types/simulation.ts. -/
structure InjectorParameters where
  inj_plate_thickness : ℝ

/-- NozzleParameters, from types/simulation.ts. -/
structure NozzleParameters where
  throat_diameter_mm : ℝ
  exit_diameter_mm : ℝ
  length_mm : ℝ
  divergence_angle_deg : ℝ
  contour_type : ContourType

/-- RocketParameters, from types/simulation.ts. -/
structure RocketParameters where
  chamberPressure : ℝ
  mixtureRatio : ℝ
  throatDiameter : ℝ
  chamberLength : ℝ
  nozzleExpansionRatio : ℝ
  propellantTemp : ℝ
  grain : GrainParameters
  combustionChamber : CombustionChamberParameters
  injector : InjectorParameters
  nozzle : NozzleParameters

/-- SimulationResult, from types/simulation.ts.  Scalar fields that pass
through a square root in the code are Option-valued (none = NaN). -/
structure SimulationResult where
  id : String
  timestamp : ℤ
  parameters : RocketParameters
  thrust : Option ℝ
  specificImpulse : Option ℝ
  chamberTemperature : ℝ
  exitPressure : ℝ
  massFlowRate : Option ℝ
  thrustCoefficient : Option ℝ
  pressureData : List (ℝ × ℝ)
  temperatureData : List (ℝ × ℝ)
  velocityData : List (ℝ × Option ℝ)

/-! Constants of the simulation, simulationEngine.ts lines 123-137. -/

/-- Universal gas constant (J/kmol-K). -/
def Rgas : ℝ := 8314

/-- Standard gravity (m/s^2). -/
def g0 : ℝ := 9.81

/-- Specific heat ratio for N2O/paraffin exhaust. -/
def gamma : ℝ := 1.22

/-- Molecular weight of exhaust gases (kg/kmol). -/
def Mw : ℝ := 22.5

/-- Sea level pressure (kPa). -/
def ambientPressure : ℝ := 101.325

/-- N2O density at typical tank conditions (kg/m^3). -/
def N2O_density : ℝ := 1226

/-- Paraffin wax density (kg/m^3). -/
def paraffin_density : ℝ := 920

/-- Regression rate coefficient (SI units). -/
def aCoeff : ℝ := 0.0001155

/-- Regression rate exponent for paraffin fuel. -/
def nExp : ℝ := 0.62

/-- Characteristic chamber length (m). -/
def L_star : ℝ := 1.5

/-! Unit conversions and derived geometry, simulationEngine.ts lines 139-150. -/

/-- Chamber pressure converted from MPa to kPa. -/
def chamberPressureKPa (p : RocketParameters) : ℝ := p.chamberPressure * 1000

/-- Throat area in m^2 from throat diameter in mm. -/
def throatArea (p : RocketParameters) : ℝ :=
  Real.pi * (p.nozzle.throat_diameter_mm / 2000) ^ 2

/-- Exit area in m^2 from exit diameter in mm. -/
def exitArea (p : RocketParameters) : ℝ :=
  Real.pi * (p.nozzle.exit_diameter_mm / 2000) ^ 2

/-- Expansion ratio = exit area / throat area. -/
def expansionRatio (p : RocketParameters) : ℝ := exitArea p / throatArea p

/-- Port diameter in m. -/
def portDiameter (p : RocketParameters) : ℝ := p.grain.initial_port_diameter_mm / 1000

/-- Port area in m^2. -/
def portArea (p : RocketParameters) : ℝ := Real.pi * (portDiameter p / 2) ^ 2

/-- Grain outer diameter in m. -/
def grainOuterDiameter (p : RocketParameters) : ℝ := p.grain.outer_diameter_mm / 1000

/-- Grain length in m. -/
def grainLength (p : RocketParameters) : ℝ := p.grain.length_mm / 1000

/-- Grain burn area (lateral surface of the cylindrical port) in m^2. -/
def grainBurnArea (p : RocketParameters) : ℝ := Real.pi * portDiameter p * grainLength p

/-! Combustion model, simulationEngine.ts lines 152-167. -/

/-- Actual characteristic chamber length (m): free chamber volume / throat area. -/
def L_star_actual (p : RocketParameters) : ℝ :=
  (p.combustionChamber.chamber_volume_cc / 1000000) / throatArea p

/-- Combustion efficiency, clamped to the 0.85 - 0.98 band. -/
def combustionEfficiency (p : RocketParameters) : ℝ :=
  min 0.98 (max 0.85 (L_star_actual p / L_star))

/-- Theoretical chamber temperature as a function of mixture ratio. -/
def theoreticalChamberTemp (p : RocketParameters) : ℝ :=
  1600 + p.mixtureRatio * 120 - (p.mixtureRatio - 2.1) ^ 2 * 300

/-- Chamber temperature = theoretical temperature scaled by efficiency. -/
def chamberTemperature (p : RocketParameters) : ℝ :=
  theoreticalChamberTemp p * combustionEfficiency p

/-- Theoretical characteristic velocity c* (NaN if the radicand is negative). -/
def cStar_theoretical (p : RocketParameters) : Option ℝ :=
  jsqrt ((gamma * Rgas * chamberTemperature p) /
    (Mw * ((gamma + 1) / 2) ^ ((gamma + 1) / (gamma - 1))))

/-- Characteristic velocity: theoretical c* scaled by combustion efficiency. -/
def cStar (p : RocketParameters) : Option ℝ :=
  (cStar_theoretical p).map fun c => c * combustionEfficiency p

/-! Regression-rate model, simulationEngine.ts lines 169-187. -/

/-- Estimated oxidizer mass flux through the port (kg/m^2 s). -/
def estimatedOxMassFlux (p : RocketParameters) : Option ℝ :=
  jsqrt (chamberPressureKPa p * 2000 / portArea p)

/-- Regression rate r = a * G^n (m/s). -/
def regressionRate (p : RocketParameters) : Option ℝ :=
  (estimatedOxMassFlux p).map fun g => aCoeff * g ^ nExp

/-- Fuel mass flow rate (kg/s). -/
def fuelMassFlowRate (p : RocketParameters) : Option ℝ :=
  (regressionRate p).map fun r => r * grainBurnArea p * paraffin_density

/-- Oxidizer mass flow rate (kg/s). -/
def oxidMassFlowRate (p : RocketParameters) : Option ℝ :=
  (fuelMassFlowRate p).map fun f => f * p.mixtureRatio

/-- Total mass flow rate (kg/s). -/
def massFlowRate (p : RocketParameters) : Option ℝ :=
  omap2 (fun f o => f + o) (fuelMassFlowRate p) (oxidMassFlowRate p)

/-! Nozzle flow model, simulationEngine.ts lines 189-207 and 286-295. -/

/-- Pressure ratio fed to the thrust-coefficient helper: ambient / chamber. -/
def pressureRatio (p : RocketParameters) : ℝ :=
  ambientPressure / chamberPressureKPa p

/-- Typical divergence efficiency for well-designed nozzles. -/
def divergenceLoss : ℝ := 0.98

/-- calculateThrustCoefficient, simulationEngine.ts lines 286-295. -/
def calculateThrustCoefficient (gam pr er : ℝ) : Option ℝ :=
  (jsqrt (((2 * gam ^ 2) / (gam - 1)) * ((2 / (gam + 1)) ^ ((gam + 1) / (gam - 1))) *
      (1 - pr ^ ((gam - 1) / gam)))).map
    fun term1 => term1 * divergenceLoss + er * (pr - 0) / 10

/-- Thrust coefficient of the run. -/
def thrustCoefficient (p : RocketParameters) : Option ℝ :=
  calculateThrustCoefficient gamma (pressureRatio p) (expansionRatio p)

/-- Thrust (kN). -/
def thrust (p : RocketParameters) : Option ℝ :=
  (thrustCoefficient p).map fun cf => cf * chamberPressureKPa p * throatArea p / 1000

/-- Exit pressure (kPa), isentropic area-ratio inversion. -/
def exitPressure (p : RocketParameters) : ℝ :=
  chamberPressureKPa p * (1 / expansionRatio p) ^ (gamma / (gamma - 1))

/-- Contour-dependent nozzle efficiency: 0.97 for bell, 0.94 for conical. -/
def nozzleEfficiency (p : RocketParameters) : ℝ :=
  if p.nozzle.contour_type = ContourType.bell then 0.97 else 0.94

/-- Theoretical exit velocity (m/s), NaN for a negative radicand. -/
def theoreticalExitVelocity (p : RocketParameters) : Option ℝ :=
  jsqrt ((2 * gamma * Rgas * chamberTemperature p) / ((gamma - 1) * Mw) *
    (1 - (exitPressure p / chamberPressureKPa p) ^ ((gamma - 1) / gamma)))

/-- Exit velocity: theoretical exit velocity scaled by nozzle efficiency. -/
def exitVelocity (p : RocketParameters) : Option ℝ :=
  (theoreticalExitVelocity p).map fun v => v * nozzleEfficiency p

/-- Specific impulse (s). -/
def specificImpulse (p : RocketParameters) : Option ℝ :=
  (exitVelocity p).map fun v => v / g0

/-! Axial profile generator, simulationEngine.ts lines 209-264. -/

/-- Engine length (m) = (chamber length + nozzle length) / 1000. -/
def engineLength (p : RocketParameters) : ℝ :=
  (p.combustionChamber.length_mm + p.nozzle.length_mm) / 1000

/-- Number of profile sample points. -/
def numPoints : ℕ := 50

/-- Axial throat position (m). -/
def throatPosition (p : RocketParameters) : ℝ :=
  p.combustionChamber.length_mm / 1000

/-- Axial position of sample i. -/
def xPos (p : RocketParameters) (i : ℕ) : ℝ :=
  ((i : ℝ) / ((numPoints : ℝ) - 1)) * engineLength p

/-- Local nozzle area ratio at a fractional nozzle position. -/
def localAreaRatio (p : RocketParameters) (nozzleRatio : ℝ) : ℝ :=
  if p.nozzle.contour_type = ContourType.bell then
    1 + nozzleRatio ^ (0.8 : ℝ) * (expansionRatio p - 1)
  else
    1 + nozzleRatio * (expansionRatio p - 1)

/-- Profile pressure (MPa) at axial position x. -/
def samplePressure (p : RocketParameters) (x : ℝ) : ℝ :=
  if x < throatPosition p then
    chamberPressureKPa p * (1 - 0.15 * (1 - (1 - x / throatPosition p) ^ 2)) / 1000
  else
    chamberPressureKPa p *
      (1 / localAreaRatio p ((x - throatPosition p) / (engineLength p - throatPosition p))) ^
        (gamma / (gamma - 1)) / 1000

/-- Profile temperature (K) at axial position x. -/
def sampleTemperature (p : RocketParameters) (x : ℝ) : ℝ :=
  if x < throatPosition p then
    chamberTemperature p * (0.9 + 0.1 * (1 - x / throatPosition p) ^ (0.5 : ℝ))
  else
    chamberTemperature p *
      (samplePressure p x * 1000 / chamberPressureKPa p) ^ ((gamma - 1) / gamma)

/-- Profile velocity (m/s) at axial position x (none = NaN). -/
def sampleVelocity (p : RocketParameters) (x : ℝ) : Option ℝ :=
  if x < throatPosition p then
    (cStar p).bind fun c => (jsqrt (x / throatPosition p)).map fun s => c * s * 0.4
  else
    jsqrt ((2 * gamma * Rgas * chamberTemperature p) / ((gamma - 1) * Mw) *
      (1 - (samplePressure p x * 1000 / chamberPressureKPa p) ^ ((gamma - 1) / gamma)))

/-- Pressure profile series. -/
def pressureData (p : RocketParameters) : List (ℝ × ℝ) :=
  (List.range numPoints).map fun i => (xPos p i, samplePressure p (xPos p i))

/-- Temperature profile series. -/
def temperatureData (p : RocketParameters) : List (ℝ × ℝ) :=
  (List.range numPoints).map fun i => (xPos p i, sampleTemperature p (xPos p i))

/-- Velocity profile series. -/
def velocityData (p : RocketParameters) : List (ℝ × Option ℝ) :=
  (List.range numPoints).map fun i => (xPos p i, sampleVelocity p (xPos p i))

/-- runLiteSimulation, simulationEngine.ts lines 119-280.  The identifier and
timestamp are the injected values of Math.random-derived id and Date.now. -/
def runLiteSimulation (p : RocketParameters) (id : String) (ts : ℤ) : SimulationResult :=
  { id := id
    timestamp := ts
    parameters := p
    thrust := thrust p
    specificImpulse := specificImpulse p
    chamberTemperature := chamberTemperature p
    exitPressure := exitPressure p
    massFlowRate := massFlowRate p
    thrustCoefficient := thrustCoefficient p
    pressureData := pressureData p
    temperatureData := temperatureData p
    velocityData := velocityData p }

/-- Modelled from the spec: the error taxonomy of section 7 (ValidationError,
ComputationError).  No error type exists anywhere in the code. -/
inductive SimError
  | validationError (msg : String)
  | computationError (msg : String)

/-- runLiteSimulation with an error-capable codomain: the TypeScript function
body contains no throw statement of any kind, so the promise always resolves
and the translation always returns Except.ok. -/
def runLiteSimulationE (p : RocketParameters) (id : String) (ts : ℤ) :
    Except SimError SimulationResult :=
  .ok (runLiteSimulation p id ts)

/-- The section-3 input invariants of the spec: positive dimensions and
pressures, port diameter below grain outer diameter, throat diameter below
exit diameter. -/
def Valid (p : RocketParameters) : Prop :=
  0 < p.chamberPressure ∧ 0 < p.mixtureRatio ∧
  0 < p.grain.length_mm ∧ 0 < p.grain.outer_diameter_mm ∧
  0 < p.grain.initial_port_diameter_mm ∧ 0 < p.grain.port_wall_thickness_mm ∧
  0 < p.combustionChamber.length_mm ∧ 0 < p.combustionChamber.inner_diameter_mm ∧
  0 < p.combustionChamber.wall_thickness_mm ∧ 0 < p.combustionChamber.chamber_volume_cc ∧
  0 < p.injector.inj_plate_thickness ∧
  0 < p.nozzle.throat_diameter_mm ∧ 0 < p.nozzle.exit_diameter_mm ∧
  0 < p.nozzle.length_mm ∧
  p.grain.initial_port_diameter_mm < p.grain.outer_diameter_mm ∧
  p.nozzle.throat_diameter_mm < p.nozzle.exit_diameter_mm

/-- The invariant violations enumerated by claim C1: a non-positive length or
diameter, port diameter at or above the grain outer diameter, or expansion
ratio below 1. -/
def ViolatesInvariant (p : RocketParameters) : Prop :=
  p.grain.length_mm ≤ 0 ∨ p.grain.outer_diameter_mm ≤ 0 ∨
  p.grain.initial_port_diameter_mm ≤ 0 ∨ p.combustionChamber.length_mm ≤ 0 ∨
  p.nozzle.throat_diameter_mm ≤ 0 ∨ p.nozzle.exit_diameter_mm ≤ 0 ∨
  p.nozzle.length_mm ≤ 0 ∨
  p.grain.outer_diameter_mm ≤ p.grain.initial_port_diameter_mm ∨
  expansionRatio p < 1

/-- Modelled from the spec: the standard thrust-coefficient formula of
section 4.4, with the optional divergence-efficiency damping of the ideal
term left as a parameter d. -/
def specThrustCoefficient (d Pc Pe Pamb er : ℝ) : Option ℝ :=
  (jsqrt (((2 * gamma ^ 2) / (gamma - 1)) * ((2 / (gamma + 1)) ^ ((gamma + 1) / (gamma - 1))) *
      (1 - (Pe / Pc) ^ ((gamma - 1) / gamma)))).map
    fun ideal => ideal * d + er * (Pe - Pamb) / Pc

/-- Default parameter record used for concrete witnesses and counterexamples
(the values mirror the defaults of the parameter panel component). -/
def pDefault : RocketParameters :=
  { chamberPressure := 10
    mixtureRatio := 2.1
    throatDiameter := 50
    chamberLength := 350
    nozzleExpansionRatio := 16
    propellantTemp := 298
    grain :=
      { length_mm := 300
        outer_diameter_mm := 75
        initial_port_diameter_mm := 25
        port_wall_thickness_mm := 15
        port_axial_profile := PortAxialProfile.cylindrical
        port_profile_taper_angle_deg := 2 }
    combustionChamber :=
      { length_mm := 350
        inner_diameter_mm := 80
        wall_thickness_mm := 10
        chamber_volume_cc := 1000 }
    injector := { inj_plate_thickness := 5 }
    nozzle :=
      { throat_diameter_mm := 50
        exit_diameter_mm := 100
        length_mm := 150
        divergence_angle_deg := 15
        contour_type := ContourType.conical } }

/-- The same parameter record with the nozzle contour switched to bell. -/
def bellOf (p : RocketParameters) : RocketParameters :=
  { p with nozzle := { p.nozzle with contour_type := ContourType.bell } }

/-! Shared helper lemmas. -/

lemma jsqrt_of_neg {x : ℝ} (h : x < 0) : jsqrt x = none := if_pos h

lemma jsqrt_of_nonneg {x : ℝ} (h : 0 ≤ x) : jsqrt x = some (Real.sqrt x) :=
  if_neg (not_lt.2 h)

lemma combustionEfficiency_lb (p : RocketParameters) : 0.85 ≤ combustionEfficiency p :=
  le_min (by norm_num) (le_max_left _ _)

lemma combustionEfficiency_ub (p : RocketParameters) : combustionEfficiency p ≤ 0.98 :=
  min_le_left _ _

lemma combustionEfficiency_pos (p : RocketParameters) : 0 < combustionEfficiency p :=
  lt_of_lt_of_le (by norm_num) (combustionEfficiency_lb p)

lemma beta_pos : (0 : ℝ) < (gamma - 1) / gamma := by norm_num [gamma]

lemma term1_coeff_pos :
    (0 : ℝ) < ((2 * gamma ^ 2) / (gamma - 1)) *
      ((2 / (gamma + 1)) ^ ((gamma + 1) / (gamma - 1))) := by
  have h1 : (0 : ℝ) < (2 * gamma ^ 2) / (gamma - 1) := by norm_num [gamma]
  have h2 : (0 : ℝ) < (2 / (gamma + 1)) ^ ((gamma + 1) / (gamma - 1)) :=
    Real.rpow_pos_of_pos (by norm_num [gamma]) _
  exact mul_pos h1 h2

lemma chamberPressureKPa_pos {p : RocketParameters} (h : 0 < p.chamberPressure) :
    0 < chamberPressureKPa p := by
  unfold chamberPressureKPa; positivity

lemma throatArea_pos {p : RocketParameters} (h : 0 < p.nozzle.throat_diameter_mm) :
    0 < throatArea p := by
  unfold throatArea
  have hd : 0 < p.nozzle.throat_diameter_mm / 2000 := by positivity
  positivity

/-- The thrust-coefficient helper returns NaN whenever the supplied pressure
ratio exceeds 1 (negative radicand). -/
lemma calculateThrustCoefficient_none {pr er : ℝ} (h : 1 < pr) :
    calculateThrustCoefficient gamma pr er = none := by
  have hpr : 0 < pr := lt_trans one_pos h
  have hb : 1 < pr ^ ((gamma - 1) / gamma) :=
    (Real.one_lt_rpow_iff_of_pos hpr).mpr (Or.inl ⟨h, beta_pos⟩)
  have hrad : ((2 * gamma ^ 2) / (gamma - 1)) *
      ((2 / (gamma + 1)) ^ ((gamma + 1) / (gamma - 1))) *
      (1 - pr ^ ((gamma - 1) / gamma)) < 0 :=
    mul_neg_of_pos_of_neg term1_coeff_pos (by linarith)
  unfold calculateThrustCoefficient
  rw [jsqrt_of_neg hrad]
  rfl

/-- The thrust-coefficient helper on a pressure ratio at most 1 returns the
finite value made of the damped ideal term plus the divided pressure term. -/
lemma calculateThrustCoefficient_of_le_one {pr er : ℝ} (h0 : 0 ≤ pr) (h1 : pr ≤ 1) :
    calculateThrustCoefficient gamma pr er =
      some (Real.sqrt (((2 * gamma ^ 2) / (gamma - 1)) *
          ((2 / (gamma + 1)) ^ ((gamma + 1) / (gamma - 1))) *
          (1 - pr ^ ((gamma - 1) / gamma))) * divergenceLoss + er * (pr - 0) / 10) := by
  have hb : pr ^ ((gamma - 1) / gamma) ≤ 1 := Real.rpow_le_one h0 h1 beta_pos.le
  have hrad : 0 ≤ ((2 * gamma ^ 2) / (gamma - 1)) *
      ((2 / (gamma + 1)) ^ ((gamma + 1) / (gamma - 1))) *
      (1 - pr ^ ((gamma - 1) / gamma)) :=
    mul_nonneg term1_coeff_pos.le (by linarith)
  unfold calculateThrustCoefficient
  rw [jsqrt_of_nonneg hrad]
  rfl

lemma exitPressure_div {p : RocketParameters} (h : chamberPressureKPa p ≠ 0) :
    exitPressure p / chamberPressureKPa p =
      (1 / expansionRatio p) ^ (gamma / (gamma - 1)) := by
  unfold exitPressure
  rw [mul_comm, mul_div_assoc, div_self h, mul_one]

lemma expansionRatio_gt_one {p : RocketParameters} (ht : 0 < p.nozzle.throat_diameter_mm)
    (hte : p.nozzle.throat_diameter_mm < p.nozzle.exit_diameter_mm) :
    1 < expansionRatio p := by
  unfold expansionRatio
  rw [one_lt_div (throatArea_pos ht)]
  unfold throatArea exitArea
  have he : 0 < p.nozzle.exit_diameter_mm := lt_trans ht hte
  nlinarith [Real.pi_pos, sq_nonneg (p.nozzle.throat_diameter_mm / 2000),
    mul_pos (sub_pos.2 hte) (by linarith : (0:ℝ) < p.nozzle.throat_diameter_mm +
      p.nozzle.exit_diameter_mm)]

lemma expansionRatio_of_50_100 {p : RocketParameters}
    (ht : p.nozzle.throat_diameter_mm = 50) (he : p.nozzle.exit_diameter_mm = 100) :
    expansionRatio p = 4 := by
  unfold expansionRatio exitArea throatArea
  rw [ht, he]
  have hπ := Real.pi_ne_zero
  field_simp
  ring

/-! Claim C1. -/

/-- Parameter record violating the port/outer-diameter invariant. -/
def pViolating : RocketParameters :=
  { pDefault with grain := { pDefault.grain with initial_port_diameter_mm := 80 } }

/-- Claim C1 counterexample: on a record whose port diameter exceeds the grain
outer diameter, runLiteSimulation does not fail with a ValidationError (it
does not fail at all); it resolves normally with a result. -/
theorem C1_counterexample :
    ViolatesInvariant pViolating ∧
    (¬ ∃ e, runLiteSimulationE pViolating "id0" 0 = .error e) ∧
    ∃ r, runLiteSimulationE pViolating "id0" 0 = .ok r := by
  refine ⟨?_, ?_, ⟨_, rfl⟩⟩
  · refine Or.inr (Or.inr (Or.inr (Or.inr (Or.inr (Or.inr (Or.inr (Or.inl ?_)))))))
    norm_num [pViolating, pDefault]
  · rintro ⟨e, he⟩
    simp [runLiteSimulationE] at he

/-- Claim C1 amended: runLiteSimulation performs no input validation and has
no failure path: every input record, including one that violates the
section-3 invariants, produces a normally returned result. -/
theorem C1_amended (p : RocketParameters) (id : String) (ts : ℤ) :
    ∃ r, runLiteSimulationE p id ts = .ok r :=
  ⟨_, rfl⟩

/-! Claim C2. -/

/-- Parameter record with expansion ratio exactly 1 and chamber pressure
below ambient. -/
def pDegenerate : RocketParameters :=
  { pDefault with
    chamberPressure := 0.05
    nozzle := { pDefault.nozzle with exit_diameter_mm := 50 } }

/-- Claim C2 counterexample: with expansion ratio exactly 1 and ambient
pressure above chamber pressure, the code does not fail with a
ComputationError; it resolves normally and the returned thrust coefficient
is NaN. -/
theorem C2_counterexample :
    (¬ ∃ e, runLiteSimulationE pDegenerate "id0" 0 = .error e) ∧
    ∃ r, runLiteSimulationE pDegenerate "id0" 0 = .ok r ∧ r.thrustCoefficient = none := by
  refine ⟨?_, ⟨_, rfl, ?_⟩⟩
  · rintro ⟨e, he⟩
    simp [runLiteSimulationE] at he
  · show thrustCoefficient pDegenerate = none
    apply calculateThrustCoefficient_none
    norm_num [pressureRatio, chamberPressureKPa, ambientPressure, pDegenerate, pDefault]

/-- Claim C2 amended: on a geometry with expansion ratio exactly 1 and
ambient pressure above chamber pressure the code does not fail; it returns
a normal result whose thrust coefficient and thrust are NaN. -/
theorem C2_amended (p : RocketParameters) (id : String) (ts : ℤ)
    (hth : 0 < p.nozzle.throat_diameter_mm)
    (hee : p.nozzle.exit_diameter_mm = p.nozzle.throat_diameter_mm)
    (hpos : 0 < p.chamberPressure)
    (hamb : chamberPressureKPa p < ambientPressure) :
    expansionRatio p = 1 ∧
    ∃ r, runLiteSimulationE p id ts = .ok r ∧
      r.thrustCoefficient = none ∧ r.thrust = none := by
  have hone : expansionRatio p = 1 := by
    unfold expansionRatio exitArea throatArea
    rw [hee]
    exact div_self (by positivity)
  have hpr : 1 < pressureRatio p :=
    (one_lt_div (chamberPressureKPa_pos hpos)).mpr hamb
  have hcf : thrustCoefficient p = none := calculateThrustCoefficient_none hpr
  refine ⟨hone, _, rfl, hcf, ?_⟩
  show thrust p = none
  unfold thrust
  rw [hcf]
  rfl

/-- Claim C2 amended, witness at a concrete degenerate geometry. -/
theorem C2_amended_witness :
    expansionRatio pDegenerate = 1 ∧
    ∃ r, runLiteSimulationE pDegenerate "id1" 1 = .ok r ∧
      r.thrustCoefficient = none ∧ r.thrust = none :=
  C2_amended pDegenerate "id1" 1
    (by norm_num [pDegenerate, pDefault])
    (by norm_num [pDegenerate, pDefault])
    (by norm_num [pDegenerate, pDefault])
    (by norm_num [pDegenerate, pDefault, chamberPressureKPa, ambientPressure])

/-! Claim C4. -/

/-- Claim C4: the physics of a run is a pure function of the parameters; two
invocations differing only in the injected identifier and timestamp agree on
every scalar metric and every profile sample, and only id and timestamp may
differ. -/
theorem C4_determinism (p : RocketParameters) (id1 id2 : String) (ts1 ts2 : ℤ) :
    (runLiteSimulation p id1 ts1).thrust = (runLiteSimulation p id2 ts2).thrust ∧
    (runLiteSimulation p id1 ts1).specificImpulse =
      (runLiteSimulation p id2 ts2).specificImpulse ∧
    (runLiteSimulation p id1 ts1).chamberTemperature =
      (runLiteSimulation p id2 ts2).chamberTemperature ∧
    (runLiteSimulation p id1 ts1).exitPressure = (runLiteSimulation p id2 ts2).exitPressure ∧
    (runLiteSimulation p id1 ts1).massFlowRate = (runLiteSimulation p id2 ts2).massFlowRate ∧
    (runLiteSimulation p id1 ts1).thrustCoefficient =
      (runLiteSimulation p id2 ts2).thrustCoefficient ∧
    (runLiteSimulation p id1 ts1).pressureData = (runLiteSimulation p id2 ts2).pressureData ∧
    (runLiteSimulation p id1 ts1).temperatureData =
      (runLiteSimulation p id2 ts2).temperatureData ∧
    (runLiteSimulation p id1 ts1).velocityData = (runLiteSimulation p id2 ts2).velocityData ∧
    (runLiteSimulation p id1 ts1).parameters = (runLiteSimulation p id2 ts2).parameters :=
  ⟨rfl, rfl, rfl, rfl, rfl, rfl, rfl, rfl, rfl, rfl⟩

/-! Claim C7. -/

/-- Claim C7: the combustion efficiency factor always lies in the closed band
0.85 to 0.98, the returned chamber temperature is the theoretical temperature
times that factor, and the characteristic velocity is the theoretical c*
times the same factor. -/
theorem C7_efficiency_band (p : RocketParameters) (id : String) (ts : ℤ) :
    0.85 ≤ combustionEfficiency p ∧ combustionEfficiency p ≤ 0.98 ∧
    combustionEfficiency p = min 0.98 (max 0.85 (L_star_actual p / L_star)) ∧
    (runLiteSimulation p id ts).chamberTemperature =
      theoreticalChamberTemp p * combustionEfficiency p ∧
    cStar p = (cStar_theoretical p).map fun c => c * combustionEfficiency p :=
  ⟨combustionEfficiency_lb p, combustionEfficiency_ub p, rfl, rfl, rfl⟩

/-! Claim C3. -/

/-- Parameter record with chamber pressure below ambient (still satisfying
every section-3 invariant). -/
def pLowPressure : RocketParameters := { pDefault with chamberPressure := 0.05 }

/-- Claim C3 evidence: on a valid input with chamber pressure below ambient,
the returned thrust coefficient is NaN, while the claimed standard formula
(with any choice of the optional divergence damping d) produces a finite
value; so the returned coefficient never equals the claimed formula there.
The defect: calculateThrustCoefficient feeds the ambient-to-chamber pressure
ratio into the ideal term and scales the pressure term by a hardcoded 10. -/
theorem C3_code_bug_evidence :
    Valid pLowPressure ∧
    (runLiteSimulation pLowPressure "id0" 0).thrustCoefficient = none ∧
    ∀ d : ℝ,
      specThrustCoefficient d (chamberPressureKPa pLowPressure) (exitPressure pLowPressure)
          ambientPressure (expansionRatio pLowPressure) ≠
        (runLiteSimulation pLowPressure "id0" 0).thrustCoefficient := by
  have hε : expansionRatio pLowPressure = 4 := expansionRatio_of_50_100 rfl rfl
  have hPc : chamberPressureKPa pLowPressure = 50 := by
    norm_num [chamberPressureKPa, pLowPressure, pDefault]
  have hnone : thrustCoefficient pLowPressure = none := by
    apply calculateThrustCoefficient_none
    unfold pressureRatio
    rw [hPc]
    norm_num [ambientPressure]
  refine ⟨by norm_num [Valid, pLowPressure, pDefault], hnone, ?_⟩
  intro d
  show specThrustCoefficient d _ _ _ _ ≠ (runLiteSimulation pLowPressure "id0" 0).thrustCoefficient
  have hres : (runLiteSimulation pLowPressure "id0" 0).thrustCoefficient = none := hnone
  rw [hres]
  have hratio : exitPressure pLowPressure / chamberPressureKPa pLowPressure =
      (1 / (4 : ℝ)) ^ (gamma / (gamma - 1)) := by
    rw [exitPressure_div (by rw [hPc]; norm_num), hε]
  have h0r : (0 : ℝ) < (1 / (4 : ℝ)) ^ (gamma / (gamma - 1)) :=
    Real.rpow_pos_of_pos (by norm_num) _
  have h1r : (1 / (4 : ℝ)) ^ (gamma / (gamma - 1)) < 1 :=
    Real.rpow_lt_one (by norm_num) (by norm_num) (by norm_num [gamma])
  have hb : (exitPressure pLowPressure / chamberPressureKPa pLowPressure) ^
      ((gamma - 1) / gamma) < 1 := by
    rw [hratio]
    exact Real.rpow_lt_one h0r.le h1r beta_pos
  have hrad : 0 ≤ ((2 * gamma ^ 2) / (gamma - 1)) *
      ((2 / (gamma + 1)) ^ ((gamma + 1) / (gamma - 1))) *
      (1 - (exitPressure pLowPressure / chamberPressureKPa pLowPressure) ^
        ((gamma - 1) / gamma)) :=
    mul_nonneg term1_coeff_pos.le (by linarith)
  unfold specThrustCoefficient
  rw [jsqrt_of_nonneg hrad]
  simp

/-! Claim C5. -/

/-- Claim C5 counterexample: two valid inputs differing only in chamber
pressure (0.05 MPa versus 0.1 MPa, both below ambient) both yield NaN
thrust, so the larger chamber pressure does not yield strictly larger
thrust. -/
theorem C5_counterexample :
    Valid pLowPressure ∧ Valid { pLowPressure with chamberPressure := 0.1 } ∧
    pLowPressure.chamberPressure < (0.1 : ℝ) ∧
    (runLiteSimulation pLowPressure "id0" 0).thrust = none ∧
    (runLiteSimulation { pLowPressure with chamberPressure := 0.1 } "id0" 0).thrust = none ∧
    ¬ ∃ t1 t2,
        (runLiteSimulation pLowPressure "id0" 0).thrust = some t1 ∧
        (runLiteSimulation { pLowPressure with chamberPressure := 0.1 } "id0" 0).thrust =
          some t2 ∧
        t1 < t2 := by
  have hn1 : thrustCoefficient pLowPressure = none :=
    calculateThrustCoefficient_none
      (by norm_num [pressureRatio, chamberPressureKPa, pLowPressure, pDefault, ambientPressure])
  have hn2 : thrustCoefficient { pLowPressure with chamberPressure := (0.1 : ℝ) } = none :=
    calculateThrustCoefficient_none
      (by norm_num [pressureRatio, chamberPressureKPa, pLowPressure, pDefault, ambientPressure])
  have ht1 : thrust pLowPressure = none := by
    unfold thrust
    rw [hn1]
    rfl
  have ht2 : thrust { pLowPressure with chamberPressure := (0.1 : ℝ) } = none := by
    unfold thrust
    rw [hn2]
    rfl
  refine ⟨by norm_num [Valid, pLowPressure, pDefault],
    by norm_num [Valid, pLowPressure, pDefault],
    by norm_num [pLowPressure, pDefault], ht1, ht2, ?_⟩
  rintro ⟨t1, t2, h1, -, -⟩
  rw [show (runLiteSimulation pLowPressure "id0" 0).thrust = thrust pLowPressure from rfl,
    ht1] at h1
  exact Option.noConfusion h1

/-- Claim C5 amended: for a valid geometry, and any two chamber pressures at
or above ambient, the larger chamber pressure yields strictly larger thrust
(all other parameters held fixed). -/
theorem C5_amended (p : RocketParameters) (id : String) (ts : ℤ) (c1 c2 : ℝ)
    (hv : Valid p) (h1 : ambientPressure ≤ 1000 * c1) (h12 : c1 < c2) :
    ∃ t1 t2,
      (runLiteSimulation { p with chamberPressure := c1 } id ts).thrust = some t1 ∧
      (runLiteSimulation { p with chamberPressure := c2 } id ts).thrust = some t2 ∧
      t1 < t2 := by
  obtain ⟨-, -, -, -, -, -, -, -, -, -, -, hth, -, -, -, -⟩ := hv
  have hashape : (0 : ℝ) < ambientPressure := by norm_num [ambientPressure]
  have hc1 : 0 < c1 := by nlinarith
  have hc2 : 0 < c2 := lt_trans hc1 h12
  have hA : 0 < throatArea p := throatArea_pos hth
  have hEr : 0 ≤ expansionRatio p := by
    unfold expansionRatio exitArea throatArea
    positivity
  set x1 : ℝ := ambientPressure / (c1 * 1000) with hx1def
  set x2 : ℝ := ambientPressure / (c2 * 1000) with hx2def
  have hx1pos : 0 ≤ x1 := by positivity
  have hx2pos : 0 ≤ x2 := by positivity
  have hx1le : x1 ≤ 1 := (div_le_one (by positivity)).mpr (by linarith)
  have hx2lt : x2 < 1 := (div_lt_one (by positivity)).mpr (by nlinarith)
  have hx21 : x2 ≤ x1 := by
    rw [hx1def, hx2def, div_le_div_iff₀ (by positivity) (by positivity)]
    nlinarith
  have hb1 : x1 ^ ((gamma - 1) / gamma) ≤ 1 := Real.rpow_le_one hx1pos hx1le beta_pos.le
  have hb2 : x2 ^ ((gamma - 1) / gamma) < 1 := Real.rpow_lt_one hx2pos hx2lt beta_pos
  have hb21 : x2 ^ ((gamma - 1) / gamma) ≤ x1 ^ ((gamma - 1) / gamma) :=
    Real.rpow_le_rpow hx2pos hx21 beta_pos.le
  set A : ℝ := ((2 * gamma ^ 2) / (gamma - 1)) *
    ((2 / (gamma + 1)) ^ ((gamma + 1) / (gamma - 1))) with hAdef
  have hApos : 0 < A := term1_coeff_pos
  have hrad1 : 0 ≤ A * (1 - x1 ^ ((gamma - 1) / gamma)) :=
    mul_nonneg hApos.le (by linarith)
  have hrad2 : 0 < A * (1 - x2 ^ ((gamma - 1) / gamma)) :=
    mul_pos hApos (by linarith)
  have hrad12 : A * (1 - x1 ^ ((gamma - 1) / gamma)) ≤
      A * (1 - x2 ^ ((gamma - 1) / gamma)) :=
    mul_le_mul_of_nonneg_left (by linarith) hApos.le
  set s1 : ℝ := Real.sqrt (A * (1 - x1 ^ ((gamma - 1) / gamma))) with hs1def
  set s2 : ℝ := Real.sqrt (A * (1 - x2 ^ ((gamma - 1) / gamma))) with hs2def
  have hs1n : 0 ≤ s1 := Real.sqrt_nonneg _
  have hs2p : 0 < s2 := Real.sqrt_pos.mpr hrad2
  have hs12 : s1 ≤ s2 := Real.sqrt_le_sqrt hrad12
  have hcf1 : thrustCoefficient { p with chamberPressure := c1 } =
      some (s1 * divergenceLoss + expansionRatio p * (x1 - 0) / 10) := by
    show calculateThrustCoefficient gamma x1 (expansionRatio p) = _
    rw [calculateThrustCoefficient_of_le_one hx1pos hx1le, hs1def, hAdef]
  have hcf2 : thrustCoefficient { p with chamberPressure := c2 } =
      some (s2 * divergenceLoss + expansionRatio p * (x2 - 0) / 10) := by
    show calculateThrustCoefficient gamma x2 (expansionRatio p) = _
    rw [calculateThrustCoefficient_of_le_one hx2pos hx2lt.le, hs2def, hAdef]
  refine ⟨(s1 * divergenceLoss + expansionRatio p * (x1 - 0) / 10) * (c1 * 1000) *
      throatArea p / 1000,
    (s2 * divergenceLoss + expansionRatio p * (x2 - 0) / 10) * (c2 * 1000) *
      throatArea p / 1000, ?_, ?_, ?_⟩
  · show (thrustCoefficient { p with chamberPressure := c1 }).map _ = _
    rw [hcf1]
    rfl
  · show (thrustCoefficient { p with chamberPressure := c2 }).map _ = _
    rw [hcf2]
    rfl
  · show (s1 * divergenceLoss + expansionRatio p * (x1 - 0) / 10) * (c1 * 1000) *
        throatArea p / 1000 <
      (s2 * divergenceLoss + expansionRatio p * (x2 - 0) / 10) * (c2 * 1000) *
        throatArea p / 1000
    have hm1 : x1 * (c1 * 1000) = ambientPressure := div_mul_cancel₀ _ (by positivity)
    have hm2 : x2 * (c2 * 1000) = ambientPressure := div_mul_cancel₀ _ (by positivity)
    have e1 : (s1 * divergenceLoss + expansionRatio p * (x1 - 0) / 10) * (c1 * 1000) *
        throatArea p / 1000 =
        divergenceLoss * (s1 * (c1 * 1000)) * throatArea p / 1000 +
          expansionRatio p * (x1 * (c1 * 1000)) * throatArea p / 10000 := by
      ring
    have e2 : (s2 * divergenceLoss + expansionRatio p * (x2 - 0) / 10) * (c2 * 1000) *
        throatArea p / 1000 =
        divergenceLoss * (s2 * (c2 * 1000)) * throatArea p / 1000 +
          expansionRatio p * (x2 * (c2 * 1000)) * throatArea p / 10000 := by
      ring
    rw [e1, e2, hm1, hm2]
    have key : s1 * (c1 * 1000) < s2 * (c2 * 1000) := by
      calc s1 * (c1 * 1000) ≤ s2 * (c1 * 1000) :=
            mul_le_mul_of_nonneg_right hs12 (by positivity)
        _ < s2 * (c2 * 1000) := by
            have := mul_lt_mul_of_pos_left
              (show c1 * 1000 < c2 * 1000 by linarith) hs2p
            linarith
    have key2 : s1 * (c1 * 1000) * throatArea p < s2 * (c2 * 1000) * throatArea p :=
      mul_lt_mul_of_pos_right key hA
    have key3 : divergenceLoss * (s1 * (c1 * 1000)) * throatArea p / 1000 <
        divergenceLoss * (s2 * (c2 * 1000)) * throatArea p / 1000 := by
      unfold divergenceLoss
      nlinarith
    linarith

/-- Claim C5 amended, witness: chamber pressures 10 and 20 MPa on the
default geometry. -/
theorem C5_amended_witness :
    ∃ t1 t2,
      (runLiteSimulation { pDefault with chamberPressure := 10 } "id2" 2).thrust = some t1 ∧
      (runLiteSimulation { pDefault with chamberPressure := 20 } "id2" 2).thrust = some t2 ∧
      t1 < t2 :=
  C5_amended pDefault "id2" 2 10 20
    (by norm_num [Valid, pDefault])
    (by norm_num [ambientPressure])
    (by norm_num)

/-! Claim C6. -/

/-- Claim C6: holding everything else fixed, the returned chamber temperature
is a strictly increasing function of the mixture ratio up to the optimum 2.3
(which lies in the stated 2.1 - 2.5 band) and strictly decreasing beyond
it. -/
theorem C6_unimodal_temperature (p : RocketParameters) (id : String) (ts : ℤ)
    (of1 of2 : ℝ) :
    ((2.1 : ℝ) ≤ 2.3 ∧ (2.3 : ℝ) ≤ 2.5) ∧
    (of1 < of2 → of2 ≤ 2.3 →
      (runLiteSimulation { p with mixtureRatio := of1 } id ts).chamberTemperature <
        (runLiteSimulation { p with mixtureRatio := of2 } id ts).chamberTemperature) ∧
    (2.3 ≤ of1 → of1 < of2 →
      (runLiteSimulation { p with mixtureRatio := of2 } id ts).chamberTemperature <
        (runLiteSimulation { p with mixtureRatio := of1 } id ts).chamberTemperature) := by
  have heff : ∀ c : ℝ, combustionEfficiency { p with mixtureRatio := c } =
      combustionEfficiency p := fun _ => rfl
  have hpos : 0 < combustionEfficiency p := combustionEfficiency_pos p
  refine ⟨⟨by norm_num, by norm_num⟩, ?_, ?_⟩
  · intro h12 h2
    show theoreticalChamberTemp { p with mixtureRatio := of1 } *
        combustionEfficiency { p with mixtureRatio := of1 } <
      theoreticalChamberTemp { p with mixtureRatio := of2 } *
        combustionEfficiency { p with mixtureRatio := of2 }
    rw [heff, heff]
    apply mul_lt_mul_of_pos_right _ hpos
    show 1600 + of1 * 120 - (of1 - 2.1) ^ 2 * 300 <
      1600 + of2 * 120 - (of2 - 2.1) ^ 2 * 300
    nlinarith [mul_pos (show (0:ℝ) < of2 - of1 by linarith)
      (show (0:ℝ) < 4.6 - of1 - of2 by linarith)]
  · intro h1 h12
    show theoreticalChamberTemp { p with mixtureRatio := of2 } *
        combustionEfficiency { p with mixtureRatio := of2 } <
      theoreticalChamberTemp { p with mixtureRatio := of1 } *
        combustionEfficiency { p with mixtureRatio := of1 }
    rw [heff, heff]
    apply mul_lt_mul_of_pos_right _ hpos
    show 1600 + of2 * 120 - (of2 - 2.1) ^ 2 * 300 <
      1600 + of1 * 120 - (of1 - 2.1) ^ 2 * 300
    nlinarith [mul_pos (show (0:ℝ) < of2 - of1 by linarith)
      (show (0:ℝ) < of1 + of2 - 4.6 by linarith)]

/-- Claim C6 witness: on the default geometry the chamber temperature rises
from mixture ratio 2.0 to 2.2 and falls from 2.4 to 2.6. -/
theorem C6_unimodal_temperature_witness :
    (runLiteSimulation { pDefault with mixtureRatio := 2.0 } "id3" 3).chamberTemperature <
      (runLiteSimulation { pDefault with mixtureRatio := 2.2 } "id3" 3).chamberTemperature ∧
    (runLiteSimulation { pDefault with mixtureRatio := 2.6 } "id3" 3).chamberTemperature <
      (runLiteSimulation { pDefault with mixtureRatio := 2.4 } "id3" 3).chamberTemperature :=
  ⟨((C6_unimodal_temperature pDefault "id3" 3 2.0 2.2).2.1 (by norm_num) (by norm_num)),
   ((C6_unimodal_temperature pDefault "id3" 3 2.4 2.6).2.2 (by norm_num) (by norm_num))⟩

/-! More shared helpers, for the profile and contour claims. -/

lemma range_map_get {α : Type} (f : ℕ → α) (m k : ℕ)
    (h : k < ((List.range m).map f).length) :
    ((List.range m).map f).get ⟨k, h⟩ = f k := by
  simp [List.get_eq_getElem]

lemma runLiteSimulation_pressureData_get (p : RocketParameters) (id : String) (ts : ℤ)
    (k : ℕ) (h : k < (runLiteSimulation p id ts).pressureData.length) :
    (runLiteSimulation p id ts).pressureData.get ⟨k, h⟩ =
      (xPos p k, samplePressure p (xPos p k)) :=
  range_map_get (fun i => (xPos p i, samplePressure p (xPos p i))) numPoints k h

lemma runLiteSimulation_temperatureData_get (p : RocketParameters) (id : String) (ts : ℤ)
    (k : ℕ) (h : k < (runLiteSimulation p id ts).temperatureData.length) :
    (runLiteSimulation p id ts).temperatureData.get ⟨k, h⟩ =
      (xPos p k, sampleTemperature p (xPos p k)) :=
  range_map_get (fun i => (xPos p i, sampleTemperature p (xPos p i))) numPoints k h

lemma runLiteSimulation_velocityData_get (p : RocketParameters) (id : String) (ts : ℤ)
    (k : ℕ) (h : k < (runLiteSimulation p id ts).velocityData.length) :
    (runLiteSimulation p id ts).velocityData.get ⟨k, h⟩ =
      (xPos p k, sampleVelocity p (xPos p k)) :=
  range_map_get (fun i => (xPos p i, sampleVelocity p (xPos p i))) numPoints k h

/-- For an expansion ratio above 1 the isentropic exit-to-chamber pressure
ratio raised to the (gamma-1)/gamma power stays below 1. -/
lemma ratio_pow_lt_one {p : RocketParameters} (hPc : chamberPressureKPa p ≠ 0)
    (hε : 1 < expansionRatio p) :
    (exitPressure p / chamberPressureKPa p) ^ ((gamma - 1) / gamma) < 1 := by
  rw [exitPressure_div hPc]
  have hε0 : 0 < expansionRatio p := by linarith
  have hinv : 0 < 1 / expansionRatio p := by positivity
  have hinv1 : 1 / expansionRatio p < 1 := by
    rw [div_lt_one hε0]
    exact hε
  have h0r := Real.rpow_pos_of_pos hinv (gamma / (gamma - 1))
  have h1r : (1 / expansionRatio p) ^ (gamma / (gamma - 1)) < 1 :=
    Real.rpow_lt_one hinv.le hinv1 (by norm_num [gamma])
  exact Real.rpow_lt_one h0r.le h1r beta_pos

/-! Claim C8. -/

/-- Claim C8: for a valid input each profile series has exactly 50 samples,
the first axial position is 0, the last equals chamber length plus nozzle
length (in metres), axial positions are strictly increasing, and the profile
pressure at x = 0 equals the chamber pressure exactly. -/
theorem C8_profile_shape (p : RocketParameters) (id : String) (ts : ℤ) (hv : Valid p)
    (i j : ℕ) (hij : i < j)
    (hj : j < (runLiteSimulation p id ts).pressureData.length)
    (h0 : 0 < (runLiteSimulation p id ts).pressureData.length)
    (h49 : 49 < (runLiteSimulation p id ts).pressureData.length) :
    (runLiteSimulation p id ts).pressureData.length = 50 ∧
    (runLiteSimulation p id ts).temperatureData.length = 50 ∧
    (runLiteSimulation p id ts).velocityData.length = 50 ∧
    ((runLiteSimulation p id ts).pressureData.get ⟨0, h0⟩).1 = 0 ∧
    ((runLiteSimulation p id ts).pressureData.get ⟨49, h49⟩).1 =
      (p.combustionChamber.length_mm + p.nozzle.length_mm) / 1000 ∧
    ((runLiteSimulation p id ts).pressureData.get ⟨i, hij.trans hj⟩).1 <
      ((runLiteSimulation p id ts).pressureData.get ⟨j, hj⟩).1 ∧
    ((runLiteSimulation p id ts).pressureData.get ⟨0, h0⟩).2 = p.chamberPressure := by
  obtain ⟨-, -, -, -, -, -, hcc, -, -, -, -, -, -, hnzl, -, -⟩ := hv
  have hL : 0 < engineLength p := by
    unfold engineLength
    linarith
  have htp : 0 < throatPosition p := by
    unfold throatPosition
    linarith
  refine ⟨by simp [runLiteSimulation, pressureData, numPoints],
    by simp [runLiteSimulation, temperatureData, numPoints],
    by simp [runLiteSimulation, velocityData, numPoints], ?_, ?_, ?_, ?_⟩
  · rw [runLiteSimulation_pressureData_get]
    show xPos p 0 = 0
    simp [xPos]
  · rw [runLiteSimulation_pressureData_get]
    show xPos p 49 = (p.combustionChamber.length_mm + p.nozzle.length_mm) / 1000
    unfold xPos engineLength
    norm_num [numPoints]
  · rw [runLiteSimulation_pressureData_get, runLiteSimulation_pressureData_get]
    show xPos p i < xPos p j
    have hij' : (i : ℝ) < (j : ℝ) := by exact_mod_cast hij
    have hmul : (i : ℝ) * engineLength p < (j : ℝ) * engineLength p :=
      mul_lt_mul_of_pos_right hij' hL
    unfold xPos
    norm_num [numPoints]
    linarith
  · rw [runLiteSimulation_pressureData_get]
    show samplePressure p (xPos p 0) = p.chamberPressure
    have hx0 : xPos p 0 = 0 := by simp [xPos]
    rw [hx0]
    unfold samplePressure
    rw [if_pos htp, zero_div]
    unfold chamberPressureKPa
    ring

/-- Claim C8 witness: profile pressure of the default run starts at the
chamber pressure. -/
theorem C8_profile_shape_witness :
    ((runLiteSimulation pDefault "id6" 6).pressureData.get
        ⟨0, by simp [runLiteSimulation, pressureData, numPoints]⟩).2 =
      pDefault.chamberPressure :=
  (C8_profile_shape pDefault "id6" 6 (by norm_num [Valid, pDefault]) 0 1
    (by norm_num)
    (by simp [runLiteSimulation, pressureData, numPoints])
    (by simp [runLiteSimulation, pressureData, numPoints])
    (by simp [runLiteSimulation, pressureData, numPoints])).2.2.2.2.2.2

/-! Claim C10. -/

/-- Claim C10: the three profile series have equal length and carry the same
axial position at every index, namely (i / (N - 1)) times the engine length
in metres. -/
theorem C10_profile_alignment (p : RocketParameters) (id : String) (ts : ℤ) (i : ℕ)
    (hp : i < (runLiteSimulation p id ts).pressureData.length)
    (ht : i < (runLiteSimulation p id ts).temperatureData.length)
    (hvl : i < (runLiteSimulation p id ts).velocityData.length) :
    (runLiteSimulation p id ts).pressureData.length =
      (runLiteSimulation p id ts).temperatureData.length ∧
    (runLiteSimulation p id ts).temperatureData.length =
      (runLiteSimulation p id ts).velocityData.length ∧
    ((runLiteSimulation p id ts).pressureData.get ⟨i, hp⟩).1 =
      ((i : ℝ) / ((numPoints : ℝ) - 1)) *
        ((p.combustionChamber.length_mm + p.nozzle.length_mm) / 1000) ∧
    ((runLiteSimulation p id ts).temperatureData.get ⟨i, ht⟩).1 =
      ((runLiteSimulation p id ts).pressureData.get ⟨i, hp⟩).1 ∧
    ((runLiteSimulation p id ts).velocityData.get ⟨i, hvl⟩).1 =
      ((runLiteSimulation p id ts).pressureData.get ⟨i, hp⟩).1 := by
  refine ⟨by simp [runLiteSimulation, pressureData, temperatureData],
    by simp [runLiteSimulation, temperatureData, velocityData], ?_, ?_, ?_⟩
  · rw [runLiteSimulation_pressureData_get]
    show xPos p i = _
    unfold xPos engineLength
    rfl
  · rw [runLiteSimulation_temperatureData_get, runLiteSimulation_pressureData_get]
  · rw [runLiteSimulation_velocityData_get, runLiteSimulation_pressureData_get]

/-- Claim C10 witness at the default parameters and index 7. -/
theorem C10_profile_alignment_witness :
    ((runLiteSimulation pDefault "id7" 7).pressureData.get
        ⟨7, by simp [runLiteSimulation, pressureData, numPoints]⟩).1 =
      ((7 : ℝ) / ((numPoints : ℝ) - 1)) *
        ((pDefault.combustionChamber.length_mm + pDefault.nozzle.length_mm) / 1000) :=
  (C10_profile_alignment pDefault "id7" 7 7
    (by simp [runLiteSimulation, pressureData, numPoints])
    (by simp [runLiteSimulation, temperatureData, numPoints])
    (by simp [runLiteSimulation, velocityData, numPoints])).2.2.1

/-! Claim C9. -/

/-- Claim C9 counterexample: at the valid input with mixture ratio 6 the
computed chamber temperature is negative, so both the conical and the bell
run return NaN specific impulse, and the bell contour does not yield
strictly greater specific impulse. -/
theorem C9_counterexample :
    Valid { pDefault with mixtureRatio := 6 } ∧
    ({ pDefault with mixtureRatio := 6 } : RocketParameters).nozzle.contour_type =
      ContourType.conical ∧
    (runLiteSimulation { pDefault with mixtureRatio := 6 } "id5" 5).specificImpulse =
      none ∧
    (runLiteSimulation (bellOf { pDefault with mixtureRatio := 6 }) "id5" 5).specificImpulse =
      none ∧
    ¬ ∃ i1 i2,
        (runLiteSimulation { pDefault with mixtureRatio := 6 } "id5" 5).specificImpulse =
          some i1 ∧
        (runLiteSimulation (bellOf { pDefault with mixtureRatio := 6 })
            "id5" 5).specificImpulse = some i2 ∧
        i1 < i2 := by
  set q : RocketParameters := { pDefault with mixtureRatio := 6 } with hq
  have hTneg : chamberTemperature q < 0 := by
    show theoreticalChamberTemp q * combustionEfficiency q < 0
    apply mul_neg_of_neg_of_pos _ (combustionEfficiency_pos _)
    norm_num [theoreticalChamberTemp, hq, pDefault]
  have hε : expansionRatio q = 4 := expansionRatio_of_50_100 rfl rfl
  have hPc : chamberPressureKPa q = 10000 := by
    norm_num [chamberPressureKPa, hq, pDefault]
  have hb : (exitPressure q / chamberPressureKPa q) ^ ((gamma - 1) / gamma) < 1 :=
    ratio_pow_lt_one (by rw [hPc]; norm_num) (by rw [hε]; norm_num)
  have hfac : (2 * gamma * Rgas * chamberTemperature q) / ((gamma - 1) * Mw) < 0 := by
    apply div_neg_of_neg_of_pos
    · have h2 : (0 : ℝ) < 2 * gamma * Rgas := by norm_num [gamma, Rgas]
      nlinarith
    · norm_num [gamma, Mw]
  have hrad : (2 * gamma * Rgas * chamberTemperature q) / ((gamma - 1) * Mw) *
      (1 - (exitPressure q / chamberPressureKPa q) ^ ((gamma - 1) / gamma)) < 0 :=
    mul_neg_of_neg_of_pos hfac (by linarith)
  have hvel : theoreticalExitVelocity q = none := by
    unfold theoreticalExitVelocity
    exact jsqrt_of_neg hrad
  have hIsp : specificImpulse q = none := by
    unfold specificImpulse exitVelocity
    rw [hvel]
    rfl
  have hIspb : specificImpulse (bellOf q) = none := by
    have hvelb : theoreticalExitVelocity (bellOf q) = none := hvel
    unfold specificImpulse exitVelocity
    rw [hvelb]
    rfl
  refine ⟨by norm_num [Valid, hq, pDefault], rfl, hIsp, hIspb, ?_⟩
  rintro ⟨i1, i2, h1, -, -⟩
  rw [show (runLiteSimulation q "id5" 5).specificImpulse = specificImpulse q from rfl,
    hIsp] at h1
  exact Option.noConfusion h1

/-- Claim C9 amended: for a valid input whose computed chamber temperature is
positive, switching the contour from conical to bell leaves thrust, thrust
coefficient, chamber temperature, exit pressure and mass flow rate unchanged
(the whole thrust coefficient, hence its ideal term, is contour-independent)
and strictly increases the specific impulse through the 0.97 versus 0.94
efficiency applied to the same theoretical exit velocity. -/
theorem C9_amended (p : RocketParameters) (id : String) (ts : ℤ) (hv : Valid p)
    (hc : p.nozzle.contour_type = ContourType.conical)
    (hT : 0 < chamberTemperature p) :
    (runLiteSimulation (bellOf p) id ts).thrust = (runLiteSimulation p id ts).thrust ∧
    (runLiteSimulation (bellOf p) id ts).thrustCoefficient =
      (runLiteSimulation p id ts).thrustCoefficient ∧
    (runLiteSimulation (bellOf p) id ts).chamberTemperature =
      (runLiteSimulation p id ts).chamberTemperature ∧
    (runLiteSimulation (bellOf p) id ts).exitPressure =
      (runLiteSimulation p id ts).exitPressure ∧
    (runLiteSimulation (bellOf p) id ts).massFlowRate =
      (runLiteSimulation p id ts).massFlowRate ∧
    ∃ v, theoreticalExitVelocity p = some v ∧ 0 < v ∧
      (runLiteSimulation p id ts).specificImpulse = some (v * 0.94 / g0) ∧
      (runLiteSimulation (bellOf p) id ts).specificImpulse = some (v * 0.97 / g0) ∧
      v * 0.94 / g0 < v * 0.97 / g0 := by
  obtain ⟨hp, -, -, -, -, -, -, -, -, -, -, hth, -, -, -, hte⟩ := hv
  have hPc : 0 < chamberPressureKPa p := chamberPressureKPa_pos hp
  have hεgt : 1 < expansionRatio p := expansionRatio_gt_one hth hte
  have hb : (exitPressure p / chamberPressureKPa p) ^ ((gamma - 1) / gamma) < 1 :=
    ratio_pow_lt_one hPc.ne' hεgt
  have hfac : 0 < (2 * gamma * Rgas * chamberTemperature p) / ((gamma - 1) * Mw) := by
    apply div_pos
    · have h2 : (0 : ℝ) < 2 * gamma * Rgas := by norm_num [gamma, Rgas]
      nlinarith
    · norm_num [gamma, Mw]
  have hrad : 0 < (2 * gamma * Rgas * chamberTemperature p) / ((gamma - 1) * Mw) *
      (1 - (exitPressure p / chamberPressureKPa p) ^ ((gamma - 1) / gamma)) :=
    mul_pos hfac (by linarith)
  have hvel : theoreticalExitVelocity p =
      some (Real.sqrt ((2 * gamma * Rgas * chamberTemperature p) / ((gamma - 1) * Mw) *
        (1 - (exitPressure p / chamberPressureKPa p) ^ ((gamma - 1) / gamma)))) := by
    unfold theoreticalExitVelocity
    exact jsqrt_of_nonneg hrad.le
  have hvpos : 0 < Real.sqrt ((2 * gamma * Rgas * chamberTemperature p) /
      ((gamma - 1) * Mw) *
      (1 - (exitPressure p / chamberPressureKPa p) ^ ((gamma - 1) / gamma))) :=
    Real.sqrt_pos.mpr hrad
  have heffc : nozzleEfficiency p = 0.94 := by
    simp [nozzleEfficiency, hc]
  have heffb : nozzleEfficiency (bellOf p) = 0.97 := by
    simp [nozzleEfficiency, bellOf]
  refine ⟨rfl, rfl, rfl, rfl, rfl, _, hvel, hvpos, ?_, ?_, ?_⟩
  · show specificImpulse p = _
    unfold specificImpulse exitVelocity
    rw [hvel, Option.map_some', Option.map_some', heffc]
  · show specificImpulse (bellOf p) = _
    have hvelb : theoreticalExitVelocity (bellOf p) =
        some (Real.sqrt ((2 * gamma * Rgas * chamberTemperature p) / ((gamma - 1) * Mw) *
          (1 - (exitPressure p / chamberPressureKPa p) ^ ((gamma - 1) / gamma)))) := hvel
    unfold specificImpulse exitVelocity
    rw [hvelb, Option.map_some', Option.map_some', heffb]
  · have hg : (0 : ℝ) < g0 := by norm_num [g0]
    apply div_lt_div_of_pos_right _ hg
    nlinarith

/-- Claim C9 amended, witness: on the default (conical) geometry the bell
variant keeps the thrust unchanged. -/
theorem C9_amended_witness :
    (runLiteSimulation (bellOf pDefault) "id4" 4).thrust =
      (runLiteSimulation pDefault "id4" 4).thrust :=
  (C9_amended pDefault "id4" 4 (by norm_num [Valid, pDefault]) rfl
    (by
      show 0 < theoreticalChamberTemp pDefault * combustionEfficiency pDefault
      exact mul_pos (by norm_num [theoreticalChamberTemp, pDefault])
        (combustionEfficiency_pos pDefault))).1

end ThrustVectorForge
